import Mathlib

/-!
Shallow embedding of Shotcut FilterController
(src/src/controllers/filtercontroller.cpp).

The controller bridges MLT filter services with the GUI layer: it decides
which filter metadata descriptors to accept (loadFilterMetadata), tracks the
current selection into the attached-filters list (setCurrentFilter and the
row-change handlers), and relays in/out change events to the live QmlFilter
adapter.  Qt signal emissions are modelled as an explicit event trace;
the member variables of the controller become a state record.  Companion
classes that are not part of the source tree (QmlFilter sentinels,
AttachedFiltersModel, QmlMetadata accessors, qBound) are modelled from the
specification and from their call sites, and are marked as such.
-/

namespace FilterController

/-- Modelled from the spec: the QmlMetadata plugin type enumeration
(qmlmetadata.h is not in the source tree); the dispatch in
loadFilterMetadata distinguishes link descriptors from the rest. -/
inductive PluginType where
  | filter
  | producer
  | link
deriving DecidableEq, Repr

/-- Modelled from the spec: the fields of a QmlMetadata descriptor that
FilterController reads (qmlmetadata.h is not in the source tree):
mlt_service, objectName, name, plugin type, deprecation flag. -/
structure QmlMetadata where
  mlt_service : String
  objectName : String
  name : String
  type : PluginType
  isDeprecated : Bool
deriving DecidableEq, Repr

/-- Modelled from the spec: sentinel from QmlFilter meaning no selection
(qmlfilter.h is not in the source tree).  Negative, so it never collides
with a valid list index; removeCurrent acts only on indices above it. -/
def NoCurrentFilter : Int := -1

/-- Modelled from the spec: sentinel from QmlFilter meaning force-refresh
(qmlfilter.h is not in the source tree).  Distinct from NoCurrentFilter and
from every valid index, so assigning it before setCurrentFilter defeats the
early-return equality test. -/
def DeselectCurrentFilter : Int := -2

/-- Modelled from Qt: qBound(lo, v, hi) = qMax(lo, qMin(hi, v)). -/
def qBound (lo v hi : Int) : Int := max lo (min hi v)

/-- Modelled from the spec: one entry of the AttachedFiltersModel.  An
attached filter instance references the metadata it was created from and
the live engine service object (identified here by a numeric id). -/
structure AttachedEntry where
  meta : QmlMetadata
  service : Nat
deriving DecidableEq, Repr

/-- Modelled from the spec: a QmlFilter adapter object (qmlfilter.h is not
in the source tree).  Built by setCurrentFilter around an attached entry:
it is bound to the entry service and metadata and carries the isNew flag.
The id field tracks object identity so adapter lifetime can be stated. -/
structure QmlFilter where
  id : Nat
  service : Nat
  meta : QmlMetadata
  isNew : Bool
deriving DecidableEq, Repr

/-- Qt signal emissions observable from FilterController and from the live
QmlFilter adapter, recorded as an event trace. -/
inductive Event where
  | currentFilterChanged (filter : Option QmlFilter) (meta : Option QmlMetadata) (index : Int)
  | statusChanged (msg : String)
  | filterChanged (service : Option Nat)
  | adapterChanged
  | adapterChangedNamed (name : String)
  | animateInChanged
  | animateOutChanged
  | inChanged (delta : Int)
  | outChanged (delta : Int)
  | dataChanged (index : Int)
deriving DecidableEq, Repr

/-- The member state of FilterController: the attached-filters model
content, the current filter index, the bound mlt service pointer, the
current QmlFilter adapter, plus bookkeeping for adapter lifetime
(liveAdapters lists the ids of QmlFilter objects allocated and not yet
destroyed; nextAdapterId supplies fresh ids) and for the per-service
_hide property read by setCurrentFilter. -/
structure ControllerState where
  attached : List AttachedEntry
  currentFilterIndex : Int
  mltService : Option Nat
  currentFilter : Option QmlFilter
  liveAdapters : List Nat
  nextAdapterId : Nat
  hiddenServices : List Nat
deriving DecidableEq, Repr

/-- Modelled from the spec: AttachedFiltersModel entry lookup
(attachedfiltersmodel.cpp is not in the source tree).  Out-of-range
indices, including the negative sentinels, yield none. -/
def getEntry (s : ControllerState) (i : Int) : Option AttachedEntry :=
  if i < 0 then none else s.attached.get? i.toNat

/-- Modelled from the spec: AttachedFiltersModel::getMetadata as called at
filtercontroller.cpp:191; null for out-of-range indices. -/
def getMetadata (s : ControllerState) (i : Int) : Option QmlMetadata :=
  (getEntry s i).map AttachedEntry.meta

/-- Modelled from the spec: AttachedFiltersModel::getService as called at
filtercontroller.cpp:195; null for out-of-range indices. -/
def getService (s : ControllerState) (i : Int) : Option Nat :=
  (getEntry s i).map AttachedEntry.service

/-- Modelled from the spec: AttachedFiltersModel::rowCount. -/
def rowCount (s : ControllerState) : Int := s.attached.length

/-- The initial state built by the FilterController constructor: empty
attached model, no bound service, no adapter, and the current filter index
set to the no-selection sentinel (filtercontroller.cpp:33-38). -/
def initState : ControllerState :=
  { attached := []
    currentFilterIndex := NoCurrentFilter
    mltService := none
    currentFilter := none
    liveAdapters := []
    nextAdapterId := 0
    hiddenServices := [] }

/-- The _hide clearing block of setCurrentFilter (filtercontroller.cpp:184-189):
when a service is bound and its _hide property is set, the property is
cleared (the consumer refresh it triggers is an engine call, not a
listener notification). -/
def clearHide (s : ControllerState) : ControllerState :=
  match s.mltService with
  | some sid =>
      if sid ∈ s.hiddenServices then
        { s with hiddenServices := s.hiddenServices.erase sid }
      else s
  | none => s

/-- The body of setCurrentFilter past the early return and the index
assignment (filtercontroller.cpp:191-205), applied to the state t that
already holds the new index and the cleared _hide property: when the
requested attached entry has metadata, emit a null currentFilterChanged
notification, rebind the service, build a new QmlFilter adapter, emit
currentFilterChanged with the new state, and reset m_currentFilter
(destroying the previous adapter); when the entry has no metadata the
single notification carries null filter and metadata and the previous
adapter is destroyed. -/
def applySelection (t : ControllerState) (isNew : Bool) : ControllerState × List Event :=
  match getMetadata t t.currentFilterIndex with
  | some meta =>
      let ev1 := Event.currentFilterChanged none none NoCurrentFilter
      match getService t t.currentFilterIndex with
      | none =>
          -- line 196: m_mltService was assigned null, then early return
          ({ t with mltService := none }, [ev1])
      | some svc =>
          let filter : QmlFilter :=
            { id := t.nextAdapterId, service := svc, meta := meta, isNew := isNew }
          let ev2 := Event.currentFilterChanged (some filter) (some meta) t.currentFilterIndex
          -- line 204: m_currentFilter.reset(filter) destroys the previous
          -- adapter and installs the new one
          let live :=
            filter.id ::
              (match t.currentFilter with
               | some old => t.liveAdapters.erase old.id
               | none => t.liveAdapters)
          ({ t with
              mltService := some svc
              currentFilter := some filter
              liveAdapters := live
              nextAdapterId := t.nextAdapterId + 1 },
            [ev1, ev2])
  | none =>
      let ev := Event.currentFilterChanged none none t.currentFilterIndex
      -- line 204: m_currentFilter.reset(nullptr) destroys the previous adapter
      let live :=
        match t.currentFilter with
        | some old => t.liveAdapters.erase old.id
        | none => t.liveAdapters
      ({ t with currentFilter := none, liveAdapters := live }, [ev])

/-- FilterController::setCurrentFilter (filtercontroller.cpp:174-206).
Early-returns when the requested index equals the current one; otherwise
stores the new index, clears the _hide property on the previously bound
service, and runs the selection body (applySelection). -/
def setCurrentFilter (s : ControllerState) (attachedIndex : Int) (isNew : Bool := false) :
    ControllerState × List Event :=
  if attachedIndex = s.currentFilterIndex then
    (s, [])
  else
    applySelection (clearHide { s with currentFilterIndex := attachedIndex }) isNew

/-- FilterController::handleAttachedRowsRemoved (filtercontroller.cpp:264-270):
forces the index to the DeselectCurrentFilter sentinel, then selects
qBound(0, first, rowCount - 1).  The attached list was already updated by
the model before the signal is delivered. -/
def handleAttachedRowsRemoved (s : ControllerState) (first : Int) :
    ControllerState × List Event :=
  let s1 := { s with currentFilterIndex := DeselectCurrentFilter }
  setCurrentFilter s1 (qBound 0 first (rowCount s1 - 1))

/-- FilterController::handleAttachedRowsInserted (filtercontroller.cpp:272-278):
same as the removal handler but marks the selected filter as new. -/
def handleAttachedRowsInserted (s : ControllerState) (first : Int) :
    ControllerState × List Event :=
  let s1 := { s with currentFilterIndex := DeselectCurrentFilter }
  setCurrentFilter s1 (qBound 0 first (rowCount s1 - 1)) true

/-- FilterController::handleAttachedModelAboutToReset (filtercontroller.cpp:257-262). -/
def handleAttachedModelAboutToReset (s : ControllerState) :
    ControllerState × List Event :=
  setCurrentFilter s NoCurrentFilter

/-- FilterController::handleAttachDuplicateFailed (filtercontroller.cpp:280-287):
reads the metadata of the already-attached filter, emits a status message
naming it, and selects it.  The C++ dereferences the metadata pointer
without a null check, so the function is defined only when the reported
index has an entry (none models the null dereference, which the model
never reports). -/
def handleAttachDuplicateFailed (s : ControllerState) (index : Int) :
    Option (ControllerState × List Event) :=
  (getMetadata s index).map fun meta =>
    let ev := Event.statusChanged ("Only one " ++ meta.name ++ " filter is allowed.")
    let r := setCurrentFilter s index
    (r.1, ev :: r.2)

/-- FilterController::onServiceInChanged (filtercontroller.cpp:228-236):
forwards the in-point delta to the live adapter only when the delta is
nonzero, an adapter exists, and the originating service is null or matches
the adapter service. -/
def onServiceInChanged (s : ControllerState) (delta : Int) (service : Option Nat) :
    ControllerState × List Event :=
  match s.currentFilter with
  | some f =>
      if delta ≠ 0 ∧ (service = none ∨ service = some f.service) then
        (s, [Event.inChanged delta])
      else (s, [])
  | none => (s, [])

/-- FilterController::onServiceOutChanged (filtercontroller.cpp:238-246):
same guard as the in-point relay, emitting outChanged. -/
def onServiceOutChanged (s : ControllerState) (delta : Int) (service : Option Nat) :
    ControllerState × List Event :=
  match s.currentFilter with
  | some f =>
      if delta ≠ 0 ∧ (service = none ∨ service = some f.service) then
        (s, [Event.outChanged delta])
      else (s, [])
  | none => (s, [])

/-- FilterController::onFadeInChanged (filtercontroller.cpp:208-216). -/
def onFadeInChanged (s : ControllerState) : ControllerState × List Event :=
  match s.currentFilter with
  | some _ => (s, [Event.adapterChanged, Event.animateInChanged])
  | none => (s, [])

/-- FilterController::onFadeOutChanged (filtercontroller.cpp:218-226). -/
def onFadeOutChanged (s : ControllerState) : ControllerState × List Event :=
  match s.currentFilter with
  | some _ => (s, [Event.adapterChanged, Event.animateOutChanged])
  | none => (s, [])

/-- FilterController::handleAttachedModelChange (filtercontroller.cpp:248-255). -/
def handleAttachedModelChange (s : ControllerState) : ControllerState × List Event :=
  match s.currentFilter with
  | some _ => (s, [Event.adapterChangedNamed "disable"])
  | none => (s, [])

/-- FilterController::onQmlFilterChanged (filtercontroller.cpp:289-294). -/
def onQmlFilterChanged (s : ControllerState) : ControllerState × List Event :=
  (s, [Event.filterChanged s.mltService])

/-- FilterController::onQmlFilterChanged(name) (filtercontroller.cpp:296-304). -/
def onQmlFilterChangedNamed (s : ControllerState) (name : String) :
    ControllerState × List Event :=
  if name = "disable" then (s, [Event.dataChanged s.currentFilterIndex])
  else (s, [])

/-- Modelled from the spec: AttachedFiltersModel::remove as called by
removeCurrent (attachedfiltersmodel.cpp is not in the source tree).  A
valid index removes the entry from the producer filter chain and Qt then
delivers rowsRemoved to the controller handler; an invalid index is
rejected by the model with no change. -/
def attachedRemove (s : ControllerState) (i : Int) : ControllerState × List Event :=
  if 0 ≤ i ∧ i.toNat < s.attached.length then
    let s1 := { s with
      attached := s.attached.take i.toNat ++ s.attached.drop (i.toNat + 1) }
    handleAttachedRowsRemoved s1 i
  else (s, [])

/-- FilterController::removeCurrent (filtercontroller.cpp:306-312):
requests removal of the current entry only when the index is above the
NoCurrentFilter sentinel. -/
def removeCurrent (s : ControllerState) : ControllerState × List Event :=
  if s.currentFilterIndex > NoCurrentFilter then
    attachedRemove s s.currentFilterIndex
  else (s, [])

/-! ## The metadata loader decision (loadFilterMetadata) -/

/-- Modelled from the spec: the MLT repository registries consulted by
loadFilterMetadata — the filter, link and producer service name tables and
the per-filter engine metadata version property (an absent entry models a
null or invalid metadata object or a missing version property). -/
structure MltRepository where
  filters : List String
  links : List String
  producers : List String
  filterVersions : List (String × String)
deriving DecidableEq, Repr

/-- The engine version string computed at filtercontroller.cpp:73-78: the
version property of the engine metadata for the service, with a lavfi
prefix stripped; empty when the metadata is missing, invalid, or carries
no version. -/
def engineVersionString (repo : MltRepository) (service : String) : String :=
  match repo.filterVersions.lookup service with
  | some v => if v.startsWith "lavfi" then v.drop 5 else v
  | none => ""

/-- The per-descriptor acceptance decision of
FilterController::loadFilterMetadata (filtercontroller.cpp:81-103): the
descriptor is added when its mlt_service is in the filter registry, the
glaxnimate producer is present if the descriptor is maskGlaxnimate, and
the engine version is empty or satisfies the descriptor minimum-version
check; otherwise it is added only when it is a link descriptor whose
service is in the link registry.  isMltVersion stands for the
QmlMetadata::isMltVersion method (modelled from the spec: whether the
minimum-version requirement is satisfied by the given engine version). -/
def filterMetadataAccepted (repo : MltRepository) (meta : QmlMetadata)
    (isMltVersion : String → Bool) : Bool :=
  let version := engineVersionString repo meta.mlt_service
  if repo.filters.contains meta.mlt_service
      && (meta.objectName != "maskGlaxnimate" || repo.producers.contains "glaxnimate")
      && (version.isEmpty || isMltVersion version) then
    true
  else if meta.type == PluginType.link && repo.links.contains meta.mlt_service then
    true
  else
    false

/-- The acceptance condition exactly as the specification claim states it:
the filter registry reports the service and the minimum-version
requirement is satisfied, or the descriptor is a link whose service the
link registry reports.  Written from the claim, to be compared with
filterMetadataAccepted. -/
def claimedAcceptance (repo : MltRepository) (meta : QmlMetadata)
    (isMltVersion : String → Bool) : Bool :=
  let version := engineVersionString repo meta.mlt_service
  (repo.filters.contains meta.mlt_service && (version.isEmpty || isMltVersion version))
    || (meta.type == PluginType.link && repo.links.contains meta.mlt_service)

/-- The acceptance condition as amended: the claimed condition with the
glaxnimate-producer requirement for the maskGlaxnimate descriptor added to
the filter branch. -/
def amendedAcceptance (repo : MltRepository) (meta : QmlMetadata)
    (isMltVersion : String → Bool) : Bool :=
  let version := engineVersionString repo meta.mlt_service
  (repo.filters.contains meta.mlt_service
      && (meta.objectName != "maskGlaxnimate" || repo.producers.contains "glaxnimate")
      && (version.isEmpty || isMltVersion version))
    || (meta.type == PluginType.link && repo.links.contains meta.mlt_service)

/-! ## The controller as a step system

For reachability statements the controller is closed into a step system:
one Op per slot or public mutator, with the structural model changes
(insert, remove, reset) composed with the handlers Qt delivers for them. -/

/-- One externally triggered operation on the controller: either a slot
invocation, or a structural change of the attached model together with the
signal handler it triggers. -/
inductive Op where
  | selectFilter (i : Int) (isNew : Bool)
  | modelReset
  | insertRow (pos : Nat) (e : AttachedEntry)
  | removeRow (pos : Nat)
  | duplicateFailed (i : Int)
  | serviceIn (delta : Int) (service : Option Nat)
  | serviceOut (delta : Int) (service : Option Nat)
  | fadeIn
  | fadeOut
  | modelChange
  | doRemoveCurrent
  | qmlChanged
  | qmlChangedNamed (name : String)
deriving DecidableEq, Repr

/-- The transition function of the controller: dispatches an Op to the
corresponding member function.  insertRow and removeRow first apply the
structural change to the attached list (as the model does before emitting
rowsInserted and rowsRemoved) and then run the controller handler with
the row position; modelReset runs the about-to-reset handler and then
clears the list. -/
def step (s : ControllerState) (op : Op) : ControllerState × List Event :=
  match op with
  | .selectFilter i isNew => setCurrentFilter s i isNew
  | .modelReset =>
      let r := handleAttachedModelAboutToReset s
      ({ r.1 with attached := [] }, r.2)
  | .insertRow pos e =>
      let p := min pos s.attached.length
      let s1 := { s with attached := s.attached.take p ++ e :: s.attached.drop p }
      handleAttachedRowsInserted s1 p
  | .removeRow pos => attachedRemove s pos
  | .duplicateFailed i =>
      match handleAttachDuplicateFailed s i with
      | some r => r
      | none => (s, [])
  | .serviceIn delta service => onServiceInChanged s delta service
  | .serviceOut delta service => onServiceOutChanged s delta service
  | .fadeIn => onFadeInChanged s
  | .fadeOut => onFadeOutChanged s
  | .modelChange => handleAttachedModelChange s
  | .doRemoveCurrent => removeCurrent s
  | .qmlChanged => onQmlFilterChanged s
  | .qmlChangedNamed name => onQmlFilterChangedNamed s name

/-- The state reached from the constructor state after a sequence of
operations. -/
def runOps (ops : List Op) : ControllerState :=
  ops.foldl (fun s op => (step s op).1) initState

/-- The adapter-lifetime invariant: the set of live (allocated, not yet
destroyed) QmlFilter objects is exactly the one held by m_currentFilter,
and its id is below the allocation counter. -/
def liveInv (s : ControllerState) : Prop :=
  match s.currentFilter with
  | some f => s.liveAdapters = [f.id] ∧ f.id < s.nextAdapterId
  | none => s.liveAdapters = []

theorem clearHide_fields (s : ControllerState) :
    (clearHide s).attached = s.attached ∧
    (clearHide s).currentFilterIndex = s.currentFilterIndex ∧
    (clearHide s).mltService = s.mltService ∧
    (clearHide s).currentFilter = s.currentFilter ∧
    (clearHide s).liveAdapters = s.liveAdapters ∧
    (clearHide s).nextAdapterId = s.nextAdapterId := by
  rcases hms : s.mltService with _ | sid
  · simp [clearHide, hms]
  · unfold clearHide
    rw [hms]
    dsimp only
    split <;> simp [hms]

theorem liveInv_clearHide (s : ControllerState) (h : liveInv s) :
    liveInv (clearHide s) := by
  obtain ⟨-, -, -, h4, h5, h6⟩ := clearHide_fields s
  unfold liveInv at h ⊢
  rw [h4, h5, h6]
  exact h

theorem liveInv_applySelection (t : ControllerState) (isNew : Bool)
    (h : liveInv t) : liveInv (applySelection t isNew).1 := by
  unfold applySelection
  rcases hm : getMetadata t t.currentFilterIndex with _ | meta
  · rcases hc : t.currentFilter with _ | old
    · unfold liveInv at h ⊢
      rw [hc] at h
      exact h
    · unfold liveInv at h
      rw [hc] at h
      show t.liveAdapters.erase old.id = []
      rw [h.1]
      simp
  · rcases hsv : getService t t.currentFilterIndex with _ | svc
    · exact h
    · rcases hc : t.currentFilter with _ | old
      · unfold liveInv at h
        rw [hc] at h
        refine ⟨?_, Nat.lt_succ_self _⟩
        rw [h]
      · unfold liveInv at h
        rw [hc] at h
        refine ⟨?_, Nat.lt_succ_self _⟩
        rw [h.1]
        simp

theorem liveInv_setCurrentFilter (s : ControllerState) (i : Int) (isNew : Bool)
    (h : liveInv s) : liveInv (setCurrentFilter s i isNew).1 := by
  unfold setCurrentFilter
  split
  · exact h
  · exact liveInv_applySelection _ isNew (liveInv_clearHide { s with currentFilterIndex := i } h)

theorem liveInv_step (s : ControllerState) (op : Op)
    (h : liveInv s) : liveInv (step s op).1 := by
  cases op with
  | selectFilter i isNew => exact liveInv_setCurrentFilter s i isNew h
  | modelReset => exact liveInv_setCurrentFilter s NoCurrentFilter false h
  | insertRow pos e => exact liveInv_setCurrentFilter _ _ _ h
  | removeRow pos =>
      show liveInv (attachedRemove s pos).1
      unfold attachedRemove
      split
      · exact liveInv_setCurrentFilter _ _ _ h
      · exact h
  | duplicateFailed i =>
      show liveInv (match handleAttachDuplicateFailed s i with
        | some r => r
        | none => (s, [])).1
      unfold handleAttachDuplicateFailed
      rcases hm : getMetadata s i with _ | meta
      · exact h
      · exact liveInv_setCurrentFilter s i false h
  | serviceIn delta service =>
      show liveInv (onServiceInChanged s delta service).1
      unfold onServiceInChanged
      rcases hc : s.currentFilter with _ | f
      · exact h
      · dsimp only
        split <;> exact h
  | serviceOut delta service =>
      show liveInv (onServiceOutChanged s delta service).1
      unfold onServiceOutChanged
      rcases hc : s.currentFilter with _ | f
      · exact h
      · dsimp only
        split <;> exact h
  | fadeIn =>
      show liveInv (onFadeInChanged s).1
      unfold onFadeInChanged
      rcases hc : s.currentFilter with _ | f <;> exact h
  | fadeOut =>
      show liveInv (onFadeOutChanged s).1
      unfold onFadeOutChanged
      rcases hc : s.currentFilter with _ | f <;> exact h
  | modelChange =>
      show liveInv (handleAttachedModelChange s).1
      unfold handleAttachedModelChange
      rcases hc : s.currentFilter with _ | f <;> exact h
  | doRemoveCurrent =>
      show liveInv (removeCurrent s).1
      unfold removeCurrent
      split
      · unfold attachedRemove
        split
        · exact liveInv_setCurrentFilter _ _ _ h
        · exact h
      · exact h
  | qmlChanged => exact h
  | qmlChangedNamed name =>
      show liveInv (onQmlFilterChangedNamed s name).1
      unfold onQmlFilterChangedNamed
      split <;> exact h

theorem liveInv_runOps (ops : List Op) : liveInv (runOps ops) := by
  suffices hgen : ∀ (l : List Op) (s : ControllerState), liveInv s →
      liveInv (l.foldl (fun t op => (step t op).1) s) by
    exact hgen ops initState rfl
  intro l
  induction l with
  | nil => intro s hs; exact hs
  | cons op rest ih =>
      intro s hs
      exact ih ((step s op).1) (liveInv_step s op hs)

/-! ## Helper lemmas -/

theorem applySelection_index (t : ControllerState) (b : Bool) :
    (applySelection t b).1.currentFilterIndex = t.currentFilterIndex := by
  unfold applySelection
  rcases hm : getMetadata t t.currentFilterIndex with _ | meta
  · rfl
  · rcases hsv : getService t t.currentFilterIndex with _ | svc <;> rfl

theorem applySelection_attached (t : ControllerState) (b : Bool) :
    (applySelection t b).1.attached = t.attached := by
  unfold applySelection
  rcases hm : getMetadata t t.currentFilterIndex with _ | meta
  · rfl
  · rcases hsv : getService t t.currentFilterIndex with _ | svc <;> rfl

theorem setCurrentFilter_index (s : ControllerState) (i : Int) (b : Bool) :
    (setCurrentFilter s i b).1.currentFilterIndex = i := by
  unfold setCurrentFilter
  split
  next h => exact h.symm
  next h =>
    rw [applySelection_index]
    exact (clearHide_fields { s with currentFilterIndex := i }).2.1

theorem setCurrentFilter_attached (s : ControllerState) (i : Int) (b : Bool) :
    (setCurrentFilter s i b).1.attached = s.attached := by
  unfold setCurrentFilter
  split
  · rfl
  · rw [applySelection_attached]
    exact (clearHide_fields { s with currentFilterIndex := i }).1

theorem handleRemoved_index (s : ControllerState) (first : Int) :
    (handleAttachedRowsRemoved s first).1.currentFilterIndex =
      qBound 0 first ((s.attached.length : Int) - 1) := by
  unfold handleAttachedRowsRemoved
  rw [setCurrentFilter_index]
  rfl

theorem handleRemoved_attached (s : ControllerState) (first : Int) :
    (handleAttachedRowsRemoved s first).1.attached = s.attached := by
  unfold handleAttachedRowsRemoved
  rw [setCurrentFilter_attached]

theorem handleInserted_index (s : ControllerState) (first : Int) :
    (handleAttachedRowsInserted s first).1.currentFilterIndex =
      qBound 0 first ((s.attached.length : Int) - 1) := by
  unfold handleAttachedRowsInserted
  rw [setCurrentFilter_index]
  rfl

theorem handleInserted_attached (s : ControllerState) (first : Int) :
    (handleAttachedRowsInserted s first).1.attached = s.attached := by
  unfold handleAttachedRowsInserted
  rw [setCurrentFilter_attached]

theorem qBound_bounds (first x : Int) :
    0 ≤ qBound 0 first x ∧ qBound 0 first x ≤ max x 0 := by
  unfold qBound
  exact ⟨le_max_left 0 _,
    max_le (le_max_right x 0) (le_trans (min_le_left x first) (le_max_left x 0))⟩

theorem bool_ite_or (a b : Bool) :
    (if a then true else if b then true else false) = (a || b) := by
  cases a <;> cases b <;> simp

/-! ## Sample states for witnesses -/

/-- A sample metadata descriptor for concrete evaluations. -/
def sampleMeta : QmlMetadata :=
  { mlt_service := "affine"
    objectName := "affineSizePosition"
    name := "Size Position Rotate"
    type := PluginType.filter
    isDeprecated := false }

/-- A sample attached entry bound to engine service 7. -/
def sampleEntry : AttachedEntry := { meta := sampleMeta, service := 7 }

/-- A sample controller state with one attached filter and no selection. -/
def sampleState : ControllerState :=
  { attached := [sampleEntry]
    currentFilterIndex := NoCurrentFilter
    mltService := none
    currentFilter := none
    liveAdapters := []
    nextAdapterId := 0
    hiddenServices := [] }

/-- The sample state with the first attached filter selected and a live
adapter bound to it. -/
def sampleSelected : ControllerState :=
  { attached := [sampleEntry]
    currentFilterIndex := 0
    mltService := some 7
    currentFilter := some { id := 0, service := 7, meta := sampleMeta, isNew := false }
    liveAdapters := [0]
    nextAdapterId := 1
    hiddenServices := [] }

/-! ## Claims -/

/-- C4: setCurrentFilter is idempotent when the requested index equals the
current filter index: the whole state (selection index, live adapter,
bound service) is unchanged and no notification is emitted. -/
theorem C4_setCurrentFilter_idempotent (s : ControllerState) (i : Int) (isNew : Bool)
    (h : i = s.currentFilterIndex) :
    setCurrentFilter s i isNew = (s, []) := by
  unfold setCurrentFilter
  rw [if_pos h]

/-- C4 witness: selecting index 0 when index 0 is already current leaves
the sample state unchanged and emits nothing. -/
theorem C4_setCurrentFilter_idempotent_witness :
    (0 : Int) = sampleSelected.currentFilterIndex ∧
    setCurrentFilter sampleSelected 0 true = (sampleSelected, []) :=
  ⟨rfl, C4_setCurrentFilter_idempotent sampleSelected 0 true rfl⟩

/-- C8: when the current filter index is at or below the NoCurrentFilter
sentinel, removeCurrent leaves the state unchanged and requests no
removal. -/
theorem C8_removeCurrent_noop (s : ControllerState)
    (h : s.currentFilterIndex ≤ NoCurrentFilter) :
    removeCurrent s = (s, []) := by
  unfold removeCurrent
  rw [if_neg (not_lt.mpr h)]

/-- C8 witness: in the constructor state (index at the sentinel),
removeCurrent does nothing. -/
theorem C8_removeCurrent_noop_witness :
    initState.currentFilterIndex ≤ NoCurrentFilter ∧
    removeCurrent initState = (initState, []) :=
  ⟨by decide, C8_removeCurrent_noop initState (by decide)⟩

/-- C9: an in-point or out-point change event with a zero delta is never
forwarded to the adapter: for every state and originating service the
state is unchanged and nothing is emitted. -/
theorem C9_zero_delta_not_forwarded (s : ControllerState) (service : Option Nat) :
    onServiceInChanged s 0 service = (s, []) ∧
    onServiceOutChanged s 0 service = (s, []) := by
  unfold onServiceInChanged onServiceOutChanged
  rcases hc : s.currentFilter with _ | f
  · exact ⟨rfl, rfl⟩
  · dsimp only
    rw [if_neg (fun hcontra => hcontra.1 rfl), if_neg (fun hcontra => hcontra.1 rfl)]
    exact ⟨rfl, rfl⟩

/-- C1 counterexample input: the maskGlaxnimate descriptor. -/
def maskGlaxnimateMeta : QmlMetadata :=
  { mlt_service := "mask_glaxnimate"
    objectName := "maskGlaxnimate"
    name := "Mask: Glaxnimate"
    type := PluginType.filter
    isDeprecated := false }

/-- C1 counterexample input: a repository whose filter registry has
mask_glaxnimate but whose producer registry lacks glaxnimate. -/
def noGlaxnimateRepo : MltRepository :=
  { filters := ["mask_glaxnimate"]
    links := []
    producers := []
    filterVersions := [] }

/-- C1 counterexample: for the maskGlaxnimate descriptor with its service
in the filter registry, no version requirement pending, and the glaxnimate
producer absent, the claimed condition holds but loadFilterMetadata does
not add the descriptor. -/
theorem C1_counterexample :
    claimedAcceptance noGlaxnimateRepo maskGlaxnimateMeta (fun _ => true) = true ∧
    filterMetadataAccepted noGlaxnimateRepo maskGlaxnimateMeta (fun _ => true) = false := by
  constructor <;> rfl

/-- C1 amended: a descriptor is added if and only if its mlt_service is in
the filter registry, the glaxnimate producer is available when the
descriptor is maskGlaxnimate, and any minimum-version requirement is
satisfied, or the descriptor is a link whose service the link registry
reports. -/
theorem C1_acceptance_amended (repo : MltRepository) (meta : QmlMetadata)
    (isMltVersion : String → Bool) :
    filterMetadataAccepted repo meta isMltVersion =
      amendedAcceptance repo meta isMltVersion := by
  unfold filterMetadataAccepted amendedAcceptance
  exact bool_ite_or _ _

/-- C2 counterexample: after a removal that empties the attached list, the
handler resolves the selection to index 0, which is not within
[0, rowCount - 1] when rowCount = 0. -/
theorem C2_counterexample :
    ¬ (0 ≤ (handleAttachedRowsRemoved initState 0).1.currentFilterIndex ∧
        (handleAttachedRowsRemoved initState 0).1.currentFilterIndex ≤
          ((handleAttachedRowsRemoved initState 0).1.attached.length : Int) - 1) := by
  decide

/-- C2 amended: after a structural-change handler runs, the current filter
index lies within [0, max(rowCount - 1, 0)] of the attached model: within
[0, rowCount - 1] whenever the resulting list is nonempty, and exactly 0
for an empty list; the handler itself leaves the attached list unchanged. -/
theorem C2_selection_bounded_amended (s : ControllerState) (first : Int) :
    (0 ≤ (handleAttachedRowsRemoved s first).1.currentFilterIndex ∧
      (handleAttachedRowsRemoved s first).1.currentFilterIndex ≤
        max ((s.attached.length : Int) - 1) 0 ∧
      (handleAttachedRowsRemoved s first).1.attached = s.attached) ∧
    (0 ≤ (handleAttachedRowsInserted s first).1.currentFilterIndex ∧
      (handleAttachedRowsInserted s first).1.currentFilterIndex ≤
        max ((s.attached.length : Int) - 1) 0 ∧
      (handleAttachedRowsInserted s first).1.attached = s.attached) := by
  obtain ⟨h1, h2⟩ := qBound_bounds first ((s.attached.length : Int) - 1)
  refine ⟨⟨?_, ?_, handleRemoved_attached s first⟩,
    ⟨?_, ?_, handleInserted_attached s first⟩⟩
  · rw [handleRemoved_index]; exact h1
  · rw [handleRemoved_index]; exact h2
  · rw [handleInserted_index]; exact h1
  · rw [handleInserted_index]; exact h2

theorem applySelection_spec (t : ControllerState) (isNew : Bool) (e : AttachedEntry)
    (he : getEntry t t.currentFilterIndex = some e)
    (hinv : liveInv t) :
    applySelection t isNew =
      ({ t with
          mltService := some e.service
          currentFilter := some { id := t.nextAdapterId, service := e.service,
                                  meta := e.meta, isNew := isNew }
          liveAdapters := [t.nextAdapterId]
          nextAdapterId := t.nextAdapterId + 1 },
        [Event.currentFilterChanged none none NoCurrentFilter,
         Event.currentFilterChanged
           (some { id := t.nextAdapterId, service := e.service, meta := e.meta, isNew := isNew })
           (some e.meta) t.currentFilterIndex]) := by
  have hm : getMetadata t t.currentFilterIndex = some e.meta := by
    unfold getMetadata
    rw [he]
    rfl
  have hsv : getService t t.currentFilterIndex = some e.service := by
    unfold getService
    rw [he]
    rfl
  unfold applySelection
  simp only [hm, hsv]
  rcases hc : t.currentFilter with _ | old
  · unfold liveInv at hinv
    rw [hc] at hinv
    rw [hinv]
  · unfold liveInv at hinv
    rw [hc] at hinv
    rw [hinv.1]
    dsimp only
    rw [List.erase_cons_head]

/-- C3: selecting a different index whose attached entry exists emits a
null currentFilterChanged notification first, rebinds the service, builds
a new adapter bound to the entry, emits currentFilterChanged with the new
adapter, its metadata and the new index, and destroys the previous
adapter: afterwards the only live adapter is the freshly built one. -/
theorem C3_selection_rebuild (s : ControllerState) (i : Int) (isNew : Bool) (e : AttachedEntry)
    (hne : i ≠ s.currentFilterIndex)
    (he : getEntry s i = some e)
    (hinv : liveInv s) :
    (setCurrentFilter s i isNew).2 =
      [Event.currentFilterChanged none none NoCurrentFilter,
       Event.currentFilterChanged
         (some { id := s.nextAdapterId, service := e.service, meta := e.meta, isNew := isNew })
         (some e.meta) i] ∧
    (setCurrentFilter s i isNew).1.currentFilter =
      some { id := s.nextAdapterId, service := e.service, meta := e.meta, isNew := isNew } ∧
    (setCurrentFilter s i isNew).1.mltService = some e.service ∧
    (setCurrentFilter s i isNew).1.liveAdapters = [s.nextAdapterId] ∧
    (setCurrentFilter s i isNew).1.currentFilterIndex = i := by
  obtain ⟨hatt, hidx, -, -, -, hnext⟩ := clearHide_fields { s with currentFilterIndex := i }
  have he2 : getEntry (clearHide { s with currentFilterIndex := i })
      (clearHide { s with currentFilterIndex := i }).currentFilterIndex = some e := by
    unfold getEntry
    rw [hatt, hidx]
    exact he
  have hinv2 : liveInv (clearHide { s with currentFilterIndex := i }) :=
    liveInv_clearHide _ hinv
  have hspec := applySelection_spec (clearHide { s with currentFilterIndex := i }) isNew e he2 hinv2
  unfold setCurrentFilter
  rw [if_neg hne, hspec]
  refine ⟨?_, ?_, ?_, ?_, ?_⟩ <;> simp [hnext, hidx]

/-- C3 witness: from the sample state (one attached entry, nothing
selected), selecting index 0 emits the null notification and then the new
state, builds the adapter bound to service 7, and leaves it as the only
live adapter. -/
theorem C3_selection_rebuild_witness :
    ((0 : Int) ≠ sampleState.currentFilterIndex ∧
      getEntry sampleState 0 = some sampleEntry ∧ liveInv sampleState) ∧
    ((setCurrentFilter sampleState 0 true).2 =
        [Event.currentFilterChanged none none NoCurrentFilter,
         Event.currentFilterChanged
           (some { id := sampleState.nextAdapterId, service := sampleEntry.service,
                   meta := sampleEntry.meta, isNew := true })
           (some sampleEntry.meta) 0] ∧
      (setCurrentFilter sampleState 0 true).1.currentFilter =
        some { id := sampleState.nextAdapterId, service := sampleEntry.service,
               meta := sampleEntry.meta, isNew := true } ∧
      (setCurrentFilter sampleState 0 true).1.mltService = some sampleEntry.service ∧
      (setCurrentFilter sampleState 0 true).1.liveAdapters = [sampleState.nextAdapterId] ∧
      (setCurrentFilter sampleState 0 true).1.currentFilterIndex = 0) :=
  ⟨⟨by decide, rfl, rfl⟩,
    C3_selection_rebuild sampleState 0 true sampleEntry (by decide) rfl rfl⟩

/-- C5: an in-point or out-point change whose originating service is
non-null and differs from the current adapter service is not forwarded:
nothing is emitted and the state is unchanged. -/
theorem C5_relay_service_mismatch (s : ControllerState) (delta : Int) (sid : Nat)
    (f : QmlFilter) (hf : s.currentFilter = some f) (hne : f.service ≠ sid) :
    onServiceInChanged s delta (some sid) = (s, []) ∧
    onServiceOutChanged s delta (some sid) = (s, []) := by
  unfold onServiceInChanged onServiceOutChanged
  rw [hf]
  dsimp only
  have hcond : ¬ (delta ≠ 0 ∧
      ((some sid : Option Nat) = none ∨ (some sid : Option Nat) = some f.service)) := by
    rintro ⟨-, hopt | hopt⟩
    · exact Option.noConfusion hopt
    · exact hne (Option.some.inj hopt).symm
  rw [if_neg hcond, if_neg hcond]
  exact ⟨rfl, rfl⟩

/-- C5 witness: with the adapter bound to service 7, a delta of 5 from
service 9 is not forwarded in either direction. -/
theorem C5_relay_service_mismatch_witness :
    (sampleSelected.currentFilter =
        some { id := 0, service := 7, meta := sampleMeta, isNew := false } ∧
      ({ id := 0, service := 7, meta := sampleMeta, isNew := false } : QmlFilter).service ≠ 9) ∧
    (onServiceInChanged sampleSelected 5 (some 9) = (sampleSelected, []) ∧
      onServiceOutChanged sampleSelected 5 (some 9) = (sampleSelected, [])) :=
  ⟨⟨rfl, by decide⟩,
    C5_relay_service_mismatch sampleSelected 5 9
      { id := 0, service := 7, meta := sampleMeta, isNew := false } rfl (by decide)⟩

/-- C7: a duplicate-attach report for an index with an attached entry does
not fail: the handler runs (no null dereference), first emits a status
message naming the filter, and leaves the attached-filter list
unchanged. -/
theorem C7_duplicate_status (s : ControllerState) (i : Int) (meta : QmlMetadata)
    (hm : getMetadata s i = some meta) :
    (handleAttachDuplicateFailed s i).isSome = true ∧
    ((handleAttachDuplicateFailed s i).getD (s, [])).2.head? =
      some (Event.statusChanged ("Only one " ++ meta.name ++ " filter is allowed.")) ∧
    ((handleAttachDuplicateFailed s i).getD (s, [])).1.attached = s.attached := by
  unfold handleAttachDuplicateFailed
  rw [hm]
  exact ⟨rfl, rfl, setCurrentFilter_attached s i false⟩

/-- C7 witness: the duplicate report for index 0 of the sample state emits
the status message naming the sample filter and keeps the list. -/
theorem C7_duplicate_status_witness :
    getMetadata sampleState 0 = some sampleMeta ∧
    ((handleAttachDuplicateFailed sampleState 0).isSome = true ∧
      ((handleAttachDuplicateFailed sampleState 0).getD (sampleState, [])).2.head? =
        some (Event.statusChanged
          ("Only one " ++ sampleMeta.name ++ " filter is allowed.")) ∧
      ((handleAttachDuplicateFailed sampleState 0).getD (sampleState, [])).1.attached =
        sampleState.attached) :=
  ⟨rfl, C7_duplicate_status sampleState 0 sampleMeta rfl⟩

/-- C10: handling a duplicate-attach report for index i also changes the
current selection to i whenever i differs from the current filter
index (and the reported entry exists). -/
theorem C10_duplicate_selects (s : ControllerState) (i : Int) (meta : QmlMetadata)
    (hm : getMetadata s i = some meta) (hne : i ≠ s.currentFilterIndex) :
    (handleAttachDuplicateFailed s i).isSome = true ∧
    ((handleAttachDuplicateFailed s i).getD (s, [])).1.currentFilterIndex = i := by
  unfold handleAttachDuplicateFailed
  rw [hm]
  exact ⟨rfl, setCurrentFilter_index s i false⟩

/-- C10 witness: the duplicate report for index 0 of the sample state
(where nothing was selected) makes index 0 current. -/
theorem C10_duplicate_selects_witness :
    (getMetadata sampleState 0 = some sampleMeta ∧
      (0 : Int) ≠ sampleState.currentFilterIndex) ∧
    ((handleAttachDuplicateFailed sampleState 0).isSome = true ∧
      ((handleAttachDuplicateFailed sampleState 0).getD (sampleState, [])).1.currentFilterIndex
        = 0) :=
  ⟨⟨rfl, by decide⟩, C10_duplicate_selects sampleState 0 sampleMeta rfl (by decide)⟩

/-- C6: in every state reachable from the constructor state by controller
operations there is at most one live QmlFilter adapter; the event-relay
operations leave the controller state (in particular the current filter
index) unchanged; and every operation that does change the index delegates
to setCurrentFilter: the row-change handlers, the reset handler and the
duplicate handler are exactly setCurrentFilter calls (the row handlers
after forcing the deselect sentinel). -/
theorem C6_selection_invariants :
    (∀ ops : List Op, (runOps ops).liveAdapters.length ≤ 1) ∧
    (∀ s : ControllerState, ∀ delta : Int, ∀ service : Option Nat,
        (onServiceInChanged s delta service).1 = s ∧
        (onServiceOutChanged s delta service).1 = s) ∧
    (∀ s : ControllerState,
        (onFadeInChanged s).1 = s ∧ (onFadeOutChanged s).1 = s ∧
        (handleAttachedModelChange s).1 = s ∧ (onQmlFilterChanged s).1 = s) ∧
    (∀ s : ControllerState, ∀ name : String, (onQmlFilterChangedNamed s name).1 = s) ∧
    (∀ s : ControllerState, ∀ first : Int,
        handleAttachedRowsRemoved s first =
          setCurrentFilter { s with currentFilterIndex := DeselectCurrentFilter }
            (qBound 0 first (rowCount s - 1)) ∧
        handleAttachedRowsInserted s first =
          setCurrentFilter { s with currentFilterIndex := DeselectCurrentFilter }
            (qBound 0 first (rowCount s - 1)) true) ∧
    (∀ s : ControllerState,
        handleAttachedModelAboutToReset s = setCurrentFilter s NoCurrentFilter) ∧
    (∀ s : ControllerState, ∀ i : Int,
        handleAttachDuplicateFailed s i =
          (getMetadata s i).map fun meta =>
            ((setCurrentFilter s i).1,
              Event.statusChanged ("Only one " ++ meta.name ++ " filter is allowed.")
                :: (setCurrentFilter s i).2)) := by
  refine ⟨?_, ?_, ?_, ?_, fun s first => ⟨rfl, rfl⟩, fun s => rfl, fun s i => rfl⟩
  · intro ops
    have h := liveInv_runOps ops
    unfold liveInv at h
    rcases hc : (runOps ops).currentFilter with _ | f
    · rw [hc] at h
      rw [h]
      simp
    · rw [hc] at h
      rw [h.1]
      simp
  · intro s delta service
    unfold onServiceInChanged onServiceOutChanged
    rcases hc : s.currentFilter with _ | f
    · exact ⟨rfl, rfl⟩
    · dsimp only
      constructor <;> split <;> rfl
  · intro s
    unfold onFadeInChanged onFadeOutChanged handleAttachedModelChange onQmlFilterChanged
    rcases hc : s.currentFilter with _ | f <;> exact ⟨rfl, rfl, rfl, rfl⟩
  · intro s name
    unfold onQmlFilterChangedNamed
    split <;> rfl

end FilterController
